import Mathlib

/-!
Shallow embedding of the core pipeline of `app_final.py`: dataset loading,
metadata extraction, free-text query parsing, filter application, and the
per-chart derivations of `update_graphs`.  Pandas/library operations that the
source delegates to (CSV fetching, `pd.to_datetime` parsing) are modelled as
explicit parameters (`Except`-valued fetch results, `String → Option _` parse
functions); everything else is translated directly from the source.
-/

namespace DataViz

/-- The value stored in the `CRASH_DATE` column of a frame: either the raw
CSV string (possibly null) as loaded, or the result of the
`pd.to_datetime(..., errors="coerce")` coercion performed by `apply_filters`
(of which only the year is consumed downstream; `none` is `NaT`). -/
inductive DateCell where
  | raw : Option String → DateCell
  | dt : Option Int → DateCell
  deriving DecidableEq, Repr

/-- One CSV row, with the columns the core pipeline reads.  Every field is
optional because any CSV cell can be null (`NaN`).  `crash_date` is the
`CRASH_DATE` column; `crash_date_sp`/`crash_time_sp` are the space-named
`CRASH DATE`/`CRASH TIME` columns that the heatmap branch reads. -/
structure Row where
  borough : Option String            -- "BOROUGH"
  crash_date : DateCell              -- "CRASH_DATE"
  crash_date_sp : Option String      -- "CRASH DATE"
  crash_time_sp : Option String      -- "CRASH TIME"
  vehicle : Option String            -- "VEHICLE TYPE CODE 1"
  factor : Option String             -- "CONTRIBUTING FACTOR VEHICLE 1"
  injury : Option String             -- "PERSON_INJURY"
  latitude : Option String           -- "LATITUDE" (only null-ness is consumed)
  longitude : Option String          -- "LONGITUDE"
  collision_id : Option Nat          -- "COLLISION_ID"
  deriving DecidableEq, Repr

/-- A pandas DataFrame: a set of column labels and the rows.  Column presence
(`"BOROUGH" in df`) is tracked separately from row data because the source
guards every access with such membership tests. -/
structure DataFrame where
  cols : List String
  rows : List Row
  deriving DecidableEq, Repr

/-- Python `"c" in df` — membership in the column labels of the frame. -/
def DataFrame.hasCol (df : DataFrame) (c : String) : Bool :=
  df.cols.contains c

/-- Source `load_full_data` (lines 21–34): `pd.read_csv(DATA_PATH)` is the `fetch`
argument.  On success the frame is returned as read (no projection, no row
cap); on any exception the handler logs and re-raises
`FileNotFoundError("Could not load full data from remote URL.")`, modelled as
an `Except.error` with that message. -/
def load_full_data (fetch : Except String DataFrame) : Except String DataFrame :=
  match fetch with
  | .ok df => .ok df
  | .error _ => .error "Could not load full data from remote URL."

/-- The metadata record returned by `load_metadata`: one list of choices per
dropdown. -/
structure Metadata where
  boroughs : List String
  years : List Int
  vehicle_types : List String
  factors : List String
  injuries : List String
  deriving DecidableEq, Repr

/-- Python `sorted(column.dropna().unique().tolist())` for a string column:
distinct values, sorted ascending. -/
def sorted_distinct (l : List String) : List String :=
  List.insertionSort (· ≤ ·) l.dedup

/-- Same for the integer year column. -/
def sorted_distinct_int (l : List Int) : List Int :=
  List.insertionSort (· ≤ ·) l.dedup

/-- The year `pd.to_datetime(s, errors="coerce")` assigns to a cell
(`none` = `NaT`): raw null cells coerce to `NaT`; already-coerced cells keep
their year (re-coercion is the identity). -/
def cellYear (pd : String → Option Int) : DateCell → Option Int
  | .raw os => os.bind pd
  | .dt oy => oy

/-- Source `load_metadata` (lines 37–66): `next(pd.read_csv(DATA_PATH, chunksize=10))`
is modelled as taking the first 10 rows of the fetched source.  If reading the
chunk raises, all five lists are returned empty so the app still starts.
Otherwise each dropdown list is the sorted distinct non-null values of its
column *in the 10-row chunk* (empty when the column is absent); `pd` stands
for the pandas date parsing used for the year column. -/
def load_metadata (pd : String → Option Int) (fetch : Except String DataFrame) :
    Metadata :=
  match fetch with
  | .error _ => ⟨[], [], [], [], []⟩
  | .ok df =>
    let df_meta : DataFrame := ⟨df.cols, df.rows.take 10⟩
    { boroughs := if df_meta.hasCol "BOROUGH" then
        sorted_distinct (df_meta.rows.filterMap (·.borough)) else []
      years := if df_meta.hasCol "CRASH_DATE" then
        sorted_distinct_int
          (df_meta.rows.filterMap (fun r => cellYear pd r.crash_date)) else []
      vehicle_types := if df_meta.hasCol "VEHICLE TYPE CODE 1" then
        sorted_distinct (df_meta.rows.filterMap (·.vehicle)) else []
      factors := if df_meta.hasCol "CONTRIBUTING FACTOR VEHICLE 1" then
        sorted_distinct (df_meta.rows.filterMap (·.factor)) else []
      injuries := if df_meta.hasCol "PERSON_INJURY" then
        sorted_distinct (df_meta.rows.filterMap (·.injury)) else [] }

/-- Python `needle in haystack` on strings: substring containment. -/
def strContains (haystack needle : String) : Bool :=
  decide (needle.data <:+: haystack.data)

/-- Python `s.lower()`. -/
def pyLower (s : String) : String :=
  String.mk (s.data.map Char.toLower)

/-- Python `not s or not s.strip()`: the string is empty or whitespace-only
(`strip` removes leading/trailing whitespace, so the stripped string is falsy
exactly when every character is whitespace). -/
def pyBlank (s : String) : Bool :=
  s.data.all Char.isWhitespace

/-- The dict `parse_search_query` builds: the three slots it can fill (all
three keys are always present in the Python dict, initialised to `[]`). -/
structure ParsedFilters where
  boroughs : List String
  years : List Int
  injuries : List String
  deriving DecidableEq, Repr

/-- The fixed keyword → injury-category table of `parse_search_query`. -/
def injury_keywords : List (String × List String) :=
  [("pedestrian", ["PEDESTRIAN"]),
   ("cyclist", ["BICYCLIST"]),
   ("motorist", ["PASSENGER", "DRIVER"]),
   ("killed", ["KILLED"]),
   ("injured", ["INJURED"])]

/-- The borough slot: every metadata borough whose lowercase form is a
substring of the lowercased query, in metadata order. -/
def matchedBoroughs (q : String) (m : Metadata) : List String :=
  m.boroughs.filter (fun b => strContains (pyLower q) (pyLower b))

/-- The year slot: every metadata year whose decimal string occurs in the
lowercased query. -/
def matchedYears (q : String) (m : Metadata) : List Int :=
  m.years.filter (fun y => strContains (pyLower q) (toString y))

/-- The injury slot: for each matched keyword, the mapped categories that
exist in the metadata injury list, appended in table order. -/
def matchedInjuries (q : String) (m : Metadata) : List String :=
  injury_keywords.foldl
    (fun acc kv =>
      if strContains (pyLower q) kv.1 then
        acc ++ kv.2.filter (fun v => m.injuries.contains v)
      else acc)
    []

/-- Source `parse_search_query` (lines 68–104): `None` for empty/whitespace-only
input; otherwise fill the three slots by substring matching and return the
dict if any slot is non-empty (`any(parsed_filters.values())`), else `None`. -/
def parse_search_query (q : String) (m : Metadata) : Option ParsedFilters :=
  if pyBlank q then none
  else
    let p : ParsedFilters := ⟨matchedBoroughs q m, matchedYears q m, matchedInjuries q m⟩
    if !p.boroughs.isEmpty || !p.years.isEmpty || !p.injuries.isEmpty then some p
    else none

/-- pandas `series.isin(values)` membership for an optional cell: a null cell
(`NaN`) is never a member. -/
def memOpt (o : Option String) (l : List String) : Bool :=
  match o with
  | some v => l.contains v
  | none => false

/-- The column assignment
`out["CRASH_DATE"] = pd.to_datetime(out["CRASH_DATE"], errors="coerce")` in
`apply_filters`, applied rowwise. -/
def coerce_crash_date (pd : String → Option Int) (r : Row) : Row :=
  { r with crash_date := .dt (cellYear pd r.crash_date) }

/-- The year membership test `out["CRASH_DATE"].dt.year.isin(years)` for one
cell (a `NaT` cell has no year and is never a member). -/
def yearMem (pd : String → Option Int) (c : DateCell) (years : List Int) : Bool :=
  match cellYear pd c with
  | some y => years.contains y
  | none => false

/-- The borough clause of `apply_filters` (lines 110–111):
`if boroughs and "BOROUGH" in out: out = out[out["BOROUGH"].isin(boroughs)]`. -/
def af_borough (boroughs : List String) (out : DataFrame) : DataFrame :=
  if !boroughs.isEmpty && out.hasCol "BOROUGH" then
    { out with rows := out.rows.filter (fun r => memOpt r.borough boroughs) }
  else out

/-- The year clause of `apply_filters` (lines 112–114): coerce the
`CRASH_DATE` column of the working copy with `pd.to_datetime`, then keep the
rows whose year is selected. -/
def af_year (pd : String → Option Int) (years : List Int) (out : DataFrame) :
    DataFrame :=
  if !years.isEmpty && out.hasCol "CRASH_DATE" then
    let out2 := { out with rows := out.rows.map (coerce_crash_date pd) }
    { out2 with rows := out2.rows.filter (fun r => yearMem pd r.crash_date years) }
  else out

/-- The vehicle clause of `apply_filters` (lines 115–116). -/
def af_vehicle (vehicles : List String) (out : DataFrame) : DataFrame :=
  if !vehicles.isEmpty && out.hasCol "VEHICLE TYPE CODE 1" then
    { out with rows := out.rows.filter (fun r => memOpt r.vehicle vehicles) }
  else out

/-- The factor clause of `apply_filters` (lines 117–118). -/
def af_factor (factors : List String) (out : DataFrame) : DataFrame :=
  if !factors.isEmpty && out.hasCol "CONTRIBUTING FACTOR VEHICLE 1" then
    { out with rows := out.rows.filter (fun r => memOpt r.factor factors) }
  else out

/-- The injury clause of `apply_filters` (lines 119–120). -/
def af_injury (injuries : List String) (out : DataFrame) : DataFrame :=
  if !injuries.isEmpty && out.hasCol "PERSON_INJURY" then
    { out with rows := out.rows.filter (fun r => memOpt r.injury injuries) }
  else out

/-- Source `apply_filters` (lines 106–122): the five dropdown clauses applied in
source order to a working copy of the input frame (`out = df.copy()`; the
input itself is never modified).  `pd` models the pandas date parser. -/
def apply_filters (pd : String → Option Int) (df : DataFrame)
    (boroughs : List String) (years : List Int)
    (vehicles factors injuries : List String) : DataFrame :=
  af_injury injuries
    (af_factor factors
      (af_vehicle vehicles
        (af_year pd years
          (af_borough boroughs df))))

/-- The effective (borough, year, injury) selections computed by
`filter_data_and_autofilter` (lines 323–346) before `apply_filters` runs. -/
structure Finals where
  boroughs : List String
  years : List Int
  injuries : List String
  deriving DecidableEq, Repr

/-- The merge step of `filter_data_and_autofilter`: start from the UI
selections; if `parse_search_query` returned a dict, each
`parsed_search_filters.get(key, default)` returns the list of the dict for that
key (the keys are always present in the dict the parser builds, so the
default is never used). -/
def autofilter_finals (search : String) (m : Metadata)
    (boroughs : List String) (years : List Int) (injuries : List String) :
    Finals :=
  match parse_search_query search m with
  | none => ⟨boroughs, years, injuries⟩
  | some p => ⟨p.boroughs, p.years, p.injuries⟩

/-- The heatmap branch of `update_graphs` (lines 421–426), up to the
`pivot_table` groupby: runs only when both `CRASH TIME` and `CRASH DATE`
columns exist; each row is keyed by the parsed hour of `CRASH TIME` and the
day name of `CRASH DATE`, and rows whose key contains a null
(unparsable/missing time or date) are dropped by the pivot.  `pH` models the
double `pd.to_datetime` parse of the time string to an hour; `pD` models
`pd.to_datetime(...).dt.day_name()`.  Each surviving row carries its
`COLLISION_ID` cell, the `values` column of the pivot. -/
def heat_groups (pH : String → Option Nat) (pD : String → Option String)
    (df : DataFrame) : Option (List (Nat × String × Option Nat)) :=
  if df.hasCol "CRASH TIME" && df.hasCol "CRASH DATE" then
    some (df.rows.filterMap (fun r =>
      match r.crash_time_sp.bind pH, r.crash_date_sp.bind pD with
      | some h, some d => some (h, d, r.collision_id)
      | _, _ => none))
  else none

/-- Reading one cell of the `pivot_table(..., values="COLLISION_ID",
aggfunc="count").fillna(0)` result: the number of non-null `COLLISION_ID`
values among rows keyed by `(h, d)`; any cell with no such rows (including
every cell `fillna(0)` fills, and cells outside the observed grid) reads 0. -/
def heat_cell (pH : String → Option Nat) (pD : String → Option String)
    (df : DataFrame) (h : Nat) (d : String) : Nat :=
  match heat_groups pH pD df with
  | none => 0
  | some g =>
    (g.filter (fun t => decide (t.1 = h) && decide (t.2.1 = d) && t.2.2.isSome)).length

/-- The map branch of `update_graphs` (lines 432–442): when the `LATITUDE`,
`LONGITUDE` and `BOROUGH` columns all exist, the scatter-map plots
`df.dropna(subset=["LATITUDE", "LONGITUDE"])` — every row whose two
coordinate cells are non-null; otherwise a placeholder figure is produced
(`none`). -/
def map_points (df : DataFrame) : Option (List Row) :=
  if df.hasCol "LATITUDE" && df.hasCol "LONGITUDE" && df.hasCol "BOROUGH" then
    some (df.rows.filter (fun r => r.latitude.isSome && r.longitude.isSome))
  else none

/-- The conjunction of the five slot predicates of `apply_filters` for one
row: a slot constrains the row only when its selection list is non-empty and
its column exists in the frame (`!c || p` is "if the slot is active then the
value of the row is a member"). -/
def row_passes (pd : String → Option Int) (df : DataFrame)
    (boroughs : List String) (years : List Int)
    (vehicles factors injuries : List String) (r : Row) : Bool :=
  (!(!boroughs.isEmpty && df.hasCol "BOROUGH") || memOpt r.borough boroughs) &&
  (!(!years.isEmpty && df.hasCol "CRASH_DATE") || yearMem pd r.crash_date years) &&
  (!(!vehicles.isEmpty && df.hasCol "VEHICLE TYPE CODE 1") || memOpt r.vehicle vehicles) &&
  (!(!factors.isEmpty && df.hasCol "CONTRIBUTING FACTOR VEHICLE 1") || memOpt r.factor factors) &&
  (!(!injuries.isEmpty && df.hasCol "PERSON_INJURY") || memOpt r.injury injuries)

/-- The transformation `apply_filters` applies to each surviving row: the
`CRASH_DATE` coercion exactly when the year clause ran, identity otherwise. -/
def coerce_if (pd : String → Option Int) (df : DataFrame) (years : List Int)
    (r : Row) : Row :=
  if !years.isEmpty && df.hasCol "CRASH_DATE" then coerce_crash_date pd r else r

/-! Concrete sample data used to exercise the definitions: a model of the pandas
date parser on the strings that occur in the samples, and small frames. -/

/-- Sample stand-in for `pd.to_datetime(·).dt.year` on the strings used in
the sample rows. -/
def pdEx : String → Option Int :=
  fun s => if s = "2023-01-15" then some 2023
           else if s = "2022-07-01" then some 2022
           else none

/-- Sample stand-in for the hour parse of a `CRASH TIME` string. -/
def pHex : String → Option Nat :=
  fun s => if s = "05:30:00" then some 5 else none

/-- Sample stand-in for `pd.to_datetime(·).dt.day_name()` on a
`CRASH DATE` string. -/
def pDex : String → Option String :=
  fun s => if s = "2023-01-02" then some "Monday" else none

/-- Sample metadata: one borough, one year, one injury value. -/
def mEx : Metadata := ⟨["MANHATTAN"], [2023], [], [], ["KILLED"]⟩

/-- The column labels of the sample frames. -/
def colsEx : List String :=
  ["BOROUGH", "CRASH_DATE", "CRASH DATE", "CRASH TIME", "VEHICLE TYPE CODE 1",
   "CONTRIBUTING FACTOR VEHICLE 1", "PERSON_INJURY", "LATITUDE", "LONGITUDE",
   "COLLISION_ID"]

/-- A fully populated sample row (Manhattan, 2023). -/
def rowA : Row :=
  ⟨some "MANHATTAN", .raw (some "2023-01-15"), some "2023-01-02",
   some "05:30:00", some "Sedan", some "Speeding", some "KILLED",
   some "40.78", some "-73.97", some 1⟩

/-- A second sample row (Queens, 2022, no coordinates). -/
def rowB : Row :=
  ⟨some "QUEENS", .raw (some "2022-07-01"), none, none,
   some "Bike", some "Glare", some "INJURED", none, none, some 2⟩

/-- A sample row whose `COLLISION_ID` is null but whose time and date parse. -/
def rowNullId : Row :=
  ⟨some "MANHATTAN", .raw (some "2023-01-15"), some "2023-01-02",
   some "05:30:00", none, none, none, some "40.78", some "-73.97", none⟩

/-- A two-row sample frame. -/
def dfEx : DataFrame := ⟨colsEx, [rowA, rowB]⟩

/-- A frame whose only row has a null `COLLISION_ID`. -/
def dfHeatNull : DataFrame := ⟨colsEx, [rowNullId]⟩

/-- A frame with 1001 coordinate-bearing rows (all copies of `rowA`). -/
def dfMapBig : DataFrame := ⟨colsEx, List.replicate 1001 rowA⟩

/-- An 11-row frame whose 11th row is the only one mentioning Queens. -/
def dfElevenRows : DataFrame := ⟨colsEx, List.replicate 10 rowA ++ [rowB]⟩

/-- A frame with 150001 rows, one beyond the row cap the specification
describes. -/
def dfHuge : DataFrame := ⟨colsEx, List.replicate 150001 rowA⟩

/-! ### Sanity checks on the string primitives -/

example : strContains "hello manhattan 2023" "manhattan" = true := by decide
example : strContains "hello" "2023" = false := by decide
example : pyLower "MANHATTAN" = "manhattan" := by decide
example : pyBlank "  " = true := by decide
example : pyBlank "" = true := by decide
example : pyBlank " x " = false := by decide

/-! ### Helper lemmas -/

/-- Filtering a mapped list is mapping the list filtered by the pulled-back
predicate. -/
lemma filter_of_map (g : Row → Row) (p : Row → Bool) (l : List Row) :
    (l.map g).filter p = (l.filter (fun r => p (g r))).map g := by
  induction l with
  | nil => rfl
  | cons a t ih =>
    by_cases h : p (g a) = true
    · simp [List.filter_cons, h, ih]
    · simp [List.filter_cons, h, ih]

/-- The `CRASH_DATE` coercion is transparent to the year test: coercing an
already-coerced cell keeps its year. -/
lemma yearMem_coerce (pd : String → Option Int) (r : Row) (years : List Int) :
    yearMem pd (coerce_crash_date pd r).crash_date years =
      yearMem pd r.crash_date years := by
  cases h : r.crash_date <;> simp [coerce_crash_date, yearMem, cellYear, h]

lemma coerce_borough (pd : String → Option Int) (r : Row) :
    (coerce_crash_date pd r).borough = r.borough := rfl

lemma coerce_vehicle (pd : String → Option Int) (r : Row) :
    (coerce_crash_date pd r).vehicle = r.vehicle := rfl

lemma coerce_factor (pd : String → Option Int) (r : Row) :
    (coerce_crash_date pd r).factor = r.factor := rfl

lemma coerce_injury (pd : String → Option Int) (r : Row) :
    (coerce_crash_date pd r).injury = r.injury := rfl

/-- A conditional filter is an unconditional filter with a guarded
predicate. -/
lemma cond_filter (c : Bool) (p : Row → Bool) (l : List Row) :
    (if c = true then l.filter p else l) = l.filter (fun r => !c || p r) := by
  cases c
  · simp
  · simp

/-- Two successive filters collapse to the conjunction in pass order. -/
lemma filter_filter_left (p q : Row → Bool) (l : List Row) :
    (l.filter p).filter q = l.filter (fun r => p r && q r) := by
  rw [List.filter_filter]
  exact List.filter_congr (fun r _ => Bool.and_comm _ _)

lemma af_borough_cols (b : List String) (df : DataFrame) :
    (af_borough b df).cols = df.cols := by
  unfold af_borough; split_ifs <;> rfl

lemma af_year_cols (pd : String → Option Int) (y : List Int) (df : DataFrame) :
    (af_year pd y df).cols = df.cols := by
  unfold af_year; split_ifs <;> rfl

lemma af_vehicle_cols (v : List String) (df : DataFrame) :
    (af_vehicle v df).cols = df.cols := by
  unfold af_vehicle; split_ifs <;> rfl

lemma af_factor_cols (f : List String) (df : DataFrame) :
    (af_factor f df).cols = df.cols := by
  unfold af_factor; split_ifs <;> rfl

lemma af_injury_cols (i : List String) (df : DataFrame) :
    (af_injury i df).cols = df.cols := by
  unfold af_injury; split_ifs <;> rfl

lemma af_borough_rows (b : List String) (df : DataFrame) :
    (af_borough b df).rows =
      df.rows.filter
        (fun r => !(!b.isEmpty && df.hasCol "BOROUGH") || memOpt r.borough b) := by
  by_cases h : (!b.isEmpty && df.hasCol "BOROUGH") = true
  · simp [af_borough, h]
  · simp only [Bool.not_eq_true] at h
    simp [af_borough, h]

lemma af_year_rows (pd : String → Option Int) (y : List Int) (df : DataFrame) :
    (af_year pd y df).rows =
      if (!y.isEmpty && df.hasCol "CRASH_DATE") = true then
        (df.rows.map (coerce_crash_date pd)).filter
          (fun r => yearMem pd r.crash_date y)
      else df.rows := by
  by_cases h : (!y.isEmpty && df.hasCol "CRASH_DATE") = true
  · simp [af_year, h]
  · simp only [Bool.not_eq_true] at h
    simp [af_year, h]

lemma af_vehicle_rows (v : List String) (df : DataFrame) :
    (af_vehicle v df).rows =
      df.rows.filter
        (fun r =>
          !(!v.isEmpty && df.hasCol "VEHICLE TYPE CODE 1") || memOpt r.vehicle v) := by
  by_cases h : (!v.isEmpty && df.hasCol "VEHICLE TYPE CODE 1") = true
  · simp [af_vehicle, h]
  · simp only [Bool.not_eq_true] at h
    simp [af_vehicle, h]

lemma af_factor_rows (f : List String) (df : DataFrame) :
    (af_factor f df).rows =
      df.rows.filter
        (fun r =>
          !(!f.isEmpty && df.hasCol "CONTRIBUTING FACTOR VEHICLE 1") ||
            memOpt r.factor f) := by
  by_cases h : (!f.isEmpty && df.hasCol "CONTRIBUTING FACTOR VEHICLE 1") = true
  · simp [af_factor, h]
  · simp only [Bool.not_eq_true] at h
    simp [af_factor, h]

lemma af_injury_rows (i : List String) (df : DataFrame) :
    (af_injury i df).rows =
      df.rows.filter
        (fun r => !(!i.isEmpty && df.hasCol "PERSON_INJURY") || memOpt r.injury i) := by
  by_cases h : (!i.isEmpty && df.hasCol "PERSON_INJURY") = true
  · simp [af_injury, h]
  · simp only [Bool.not_eq_true] at h
    simp [af_injury, h]

/-- The rows of `apply_filters` are exactly the input rows passing the
conjoined slot predicates, each sent through the conditional `CRASH_DATE`
coercion. -/
lemma apply_filters_rows (pd : String → Option Int) (df : DataFrame)
    (b : List String) (y : List Int) (v f i : List String) :
    (apply_filters pd df b y v f i).rows =
      (df.rows.filter (fun r => row_passes pd df b y v f i r)).map
        (fun r => coerce_if pd df y r) := by
  unfold apply_filters
  rw [af_injury_rows, af_factor_rows, af_vehicle_rows, af_year_rows,
    af_borough_rows]
  simp only [DataFrame.hasCol, af_borough_cols, af_year_cols, af_vehicle_cols,
    af_factor_cols]
  by_cases h2 : (!y.isEmpty && df.cols.contains "CRASH_DATE") = true
  · rw [if_pos h2]
    simp only [Bool.and_eq_true, Bool.not_eq_true'] at h2
    obtain ⟨hy, hc⟩ := h2
    have hy2 : ¬y = [] := by simpa using hy
    have hc2 : "CRASH_DATE" ∈ df.cols := by simpa using hc
    simp only [filter_of_map, filter_filter_left, yearMem_coerce,
      coerce_vehicle, coerce_factor, coerce_injury]
    simp [row_passes, coerce_if, DataFrame.hasCol, hy, hc2, hy2, Bool.and_assoc]
  · rw [if_neg h2]
    simp only [Bool.not_eq_true, Bool.and_eq_true, not_and_or,
      Bool.not_eq_true'] at h2
    simp only [filter_filter_left]
    rcases h2 with hy | hc
    · have hy2 : y = [] := by simpa using hy
      simp [row_passes, coerce_if, DataFrame.hasCol, hy2, Bool.and_assoc]
    · have hc2 : ¬"CRASH_DATE" ∈ df.cols := by simpa using hc
      simp [row_passes, coerce_if, DataFrame.hasCol, hc2, Bool.and_assoc]

/-- Lemma: `apply_filters` preserves the column set of the input frame. -/
lemma apply_filters_cols (pd : String → Option Int) (df : DataFrame)
    (b : List String) (y : List Int) (v f i : List String) :
    (apply_filters pd df b y v f i).cols = df.cols := by
  unfold apply_filters
  rw [af_injury_cols, af_factor_cols, af_vehicle_cols, af_year_cols,
    af_borough_cols]

/-- The slot predicates do not see the `CRASH_DATE` coercion: only the year
test reads that cell, and the coercion preserves the year. -/
lemma row_passes_coerce (pd : String → Option Int) (df : DataFrame)
    (b : List String) (y : List Int) (v f i : List String) (r : Row) :
    row_passes pd df b y v f i (coerce_crash_date pd r) =
      row_passes pd df b y v f i r := by
  simp only [row_passes, yearMem_coerce, coerce_borough, coerce_vehicle,
    coerce_factor, coerce_injury]

lemma row_passes_coerce_if (pd : String → Option Int) (df : DataFrame)
    (b : List String) (y : List Int) (v f i : List String) (r : Row) :
    row_passes pd df b y v f i (coerce_if pd df y r) =
      row_passes pd df b y v f i r := by
  unfold coerce_if
  split_ifs
  · exact row_passes_coerce pd df b y v f i r
  · rfl

/-! ### Claim theorems -/

/-- C1 counterexample: `load_full_data` with a failing fetch does not return
a fallback dataset — it surfaces an error (the re-raised
`FileNotFoundError`) to the caller. -/
theorem load_full_data_error_counterexample :
    load_full_data (.error "simulated fetch failure") =
      .error "Could not load full data from remote URL." := rfl

/-- C1 (amended): on any fetch/parse error, `load_full_data` catches the
exception and raises `FileNotFoundError("Could not load full data from
remote URL.")` in its place (the generate-report callback catches this and
degrades); it never returns a fallback dataset.  On success the fetched
frame is returned unchanged. -/
theorem load_full_data_error_semantics (e : String) :
    load_full_data (.error e) =
      .error "Could not load full data from remote URL." ∧
    ∀ df : DataFrame, load_full_data (.ok df) = .ok df :=
  ⟨rfl, fun _ => rfl⟩

/-- C5 counterexample: a successfully fetched source with 150001 rows is
returned whole — more rows than the row cap the specification describes, so
no cap is applied. -/
theorem load_full_data_no_cap_counterexample :
    load_full_data (.ok dfHuge) = .ok dfHuge ∧
    dfHuge.rows.length = 150001 ∧ ¬(150001 ≤ 150000) := by
  refine ⟨rfl, ?_, by decide⟩
  show (List.replicate 150001 rowA).length = 150001
  rw [List.length_replicate]

/-- C5 (amended): `load_full_data` applies no row-count cap: on a successful
fetch it returns the source frame unchanged, every row kept in order. -/
theorem load_full_data_keeps_all_rows (df : DataFrame) :
    load_full_data (.ok df) = .ok df ∧
    (load_full_data (.ok df)) = .ok ⟨df.cols, df.rows⟩ :=
  ⟨rfl, rfl⟩

/-- C10: when reading the initial metadata chunk raises any error,
`load_metadata` swallows it and returns a metadata object whose five value
lists are all empty, so the app still starts. -/
theorem load_metadata_error_all_empty (pd : String → Option Int) (e : String) :
    load_metadata pd (.error e) = ⟨[], [], [], [], []⟩ := rfl

/-- C3: every row retained by `apply_filters` satisfies the membership
predicate of each non-empty slot whose column exists in the frame
(soundness), and every input row satisfying all such predicates appears in
the view, after the conditional `CRASH_DATE` coercion of the view
(completeness); the slot predicates are conjoined in `row_passes`. -/
theorem apply_filters_sound_and_complete (pd : String → Option Int)
    (df : DataFrame) (b : List String) (y : List Int) (v f i : List String) :
    (∀ r ∈ (apply_filters pd df b y v f i).rows,
       row_passes pd df b y v f i r = true) ∧
    (∀ r ∈ df.rows, row_passes pd df b y v f i r = true →
       coerce_if pd df y r ∈ (apply_filters pd df b y v f i).rows) := by
  constructor
  · intro r hr
    rw [apply_filters_rows] at hr
    rcases List.mem_map.mp hr with ⟨r0, hr0, rfl⟩
    have hp := (List.mem_filter.mp hr0).2
    rw [row_passes_coerce_if]
    exact hp
  · intro r hr hp
    rw [apply_filters_rows]
    exact List.mem_map.mpr ⟨r, List.mem_filter.mpr ⟨hr, hp⟩, rfl⟩

/-- Witness for C3 at concrete data: the Manhattan row of the sample frame
passes a borough-only filter and appears in the view. -/
theorem apply_filters_sound_and_complete_witness :
    coerce_if pdEx dfEx [] rowA ∈
      (apply_filters pdEx dfEx ["MANHATTAN"] [] [] [] []).rows :=
  (apply_filters_sound_and_complete pdEx dfEx ["MANHATTAN"] [] [] [] []).2
    rowA (by decide) (by decide)

/-- C9 counterexample: with a year filter active, the returned rows carry
`CRASH_DATE` values are the coerced datetimes, not the original raw strings
— the only matching input row does not itself occur in the view. -/
theorem apply_filters_value_change_counterexample :
    (apply_filters pdEx dfEx [] [2023] [] [] []).rows =
      [{ rowA with crash_date := .dt (some 2023) }] ∧
    rowA ∉ (apply_filters pdEx dfEx [] [2023] [] [] []).rows := by decide

/-- C9 (amended): `apply_filters` never mutates its input (it works on a
copy); the view keeps the same columns and its rows are rows of the input —
unchanged whenever the year clause did not run, and otherwise equal to input
rows up to the `CRASH_DATE` datetime coercion. -/
theorem apply_filters_pure (pd : String → Option Int) (df : DataFrame)
    (b : List String) (y : List Int) (v f i : List String) :
    (apply_filters pd df b y v f i).cols = df.cols ∧
    (∀ r ∈ (apply_filters pd df b y v f i).rows,
       ∃ r0 ∈ df.rows, r = coerce_if pd df y r0) ∧
    ((!y.isEmpty && df.hasCol "CRASH_DATE") = false →
       ∀ r ∈ (apply_filters pd df b y v f i).rows, r ∈ df.rows) := by
  refine ⟨apply_filters_cols pd df b y v f i, ?_, ?_⟩
  · intro r hr
    rw [apply_filters_rows] at hr
    rcases List.mem_map.mp hr with ⟨r0, hr0, rfl⟩
    exact ⟨r0, (List.mem_filter.mp hr0).1, rfl⟩
  · intro hco r hr
    rw [apply_filters_rows] at hr
    rcases List.mem_map.mp hr with ⟨r0, hr0, rfl⟩
    have hid : coerce_if pd df y r0 = r0 := by
      simp [coerce_if, hco]
    rw [hid]
    exact (List.mem_filter.mp hr0).1

/-- Witness for C9 at concrete data: with no year filter, rows of the view
are rows of the input unchanged. -/
theorem apply_filters_pure_witness : rowA ∈ dfEx.rows :=
  (apply_filters_pure pdEx dfEx [] [] [] [] []).2.2 (by decide) rowA (by decide)

/-- C2 counterexample: searching "manhattan" with UI year selection [2023]
— the parser matches a borough but finds no year, yet the effective year
selection becomes empty instead of keeping the UI value [2023]. -/
theorem autofilter_clears_unmatched_slot_counterexample :
    matchedYears "manhattan" mEx = [] ∧
    parse_search_query "manhattan" mEx ≠ none ∧
    (autofilter_finals "manhattan" mEx [] [2023] []).years ≠ [2023] := by decide

/-- C2 (amended): when the parser returns null the UI selections are used
unchanged, but when it returns any match at all, the effective borough,
year and injury selections are all three replaced by the parsed slots —
a slot the parser left empty clears the corresponding UI selection rather
than preserving it. -/
theorem autofilter_finals_override (search : String) (m : Metadata)
    (b : List String) (y : List Int) (i : List String) :
    (parse_search_query search m = none →
       autofilter_finals search m b y i = ⟨b, y, i⟩) ∧
    (∀ p, parse_search_query search m = some p →
       autofilter_finals search m b y i =
         ⟨p.boroughs, p.years, p.injuries⟩ ∧
       p = ⟨matchedBoroughs search m, matchedYears search m,
            matchedInjuries search m⟩) := by
  constructor
  · intro h
    simp [autofilter_finals, h]
  · intro p hp
    refine ⟨by simp [autofilter_finals, hp], ?_⟩
    by_cases h1 : pyBlank search = true
    · rw [parse_search_query, if_pos h1] at hp
      exact Option.noConfusion hp
    · rw [parse_search_query, if_neg h1] at hp
      by_cases h2 : (!(matchedBoroughs search m).isEmpty ||
          !(matchedYears search m).isEmpty ||
          !(matchedInjuries search m).isEmpty) = true
      · rw [if_pos h2] at hp
        exact (Option.some.inj hp).symm
      · rw [if_neg h2] at hp
        exact Option.noConfusion hp

/-- Witness for C2 (amended) at concrete data: the parsed borough replaces
the UI borough selection and the empty parsed year slot replaces the UI
year selection. -/
theorem autofilter_finals_override_witness :
    autofilter_finals "manhattan" mEx [] [2023] [] =
      ⟨["MANHATTAN"], [], []⟩ :=
  ((autofilter_finals_override "manhattan" mEx [] [2023] []).2
      ⟨["MANHATTAN"], [], []⟩ (by decide)).1

/-- C8: `parse_search_query` returns null exactly when the input is empty
or whitespace-only, or when none of the three slots (boroughs, years,
injuries) received a matched value; otherwise it returns the non-null
partial filter set. -/
theorem parse_search_query_none_iff (q : String) (m : Metadata) :
    parse_search_query q m = none ↔
      (pyBlank q = true ∨
        (matchedBoroughs q m = [] ∧ matchedYears q m = [] ∧
         matchedInjuries q m = [])) := by
  by_cases h1 : pyBlank q = true
  · simp [parse_search_query, h1]
  · rw [parse_search_query, if_neg h1]
    by_cases h2 : (!(matchedBoroughs q m).isEmpty ||
        !(matchedYears q m).isEmpty ||
        !(matchedInjuries q m).isEmpty) = true
    · rw [if_pos h2]
      simp only [Bool.or_eq_true, Bool.not_eq_true', List.isEmpty_eq_false] at h2
      constructor
      · intro hcontra
        exact Option.noConfusion hcontra
      · intro hc
        rcases hc with hb | hc
        · exact absurd hb h1
        · exfalso
          rcases h2 with (h | h) | h
          · exact absurd hc.1 h
          · exact absurd hc.2.1 h
          · exact absurd hc.2.2 h
    · rw [if_neg h2]
      simp only [Bool.or_eq_true, Bool.not_eq_true', List.isEmpty_eq_false,
        not_or, not_not] at h2
      obtain ⟨⟨ha, hb⟩, hc⟩ := h2
      simp [h1, ha, hb, hc]

/-- C4 counterexample: a filtered view with 1001 coordinate-bearing rows
yields 1001 map points — beyond the cap the specification describes, so no
sampling takes place. -/
theorem map_points_no_sampling_counterexample :
    (map_points dfMapBig).map List.length = some 1001 ∧ 1000 < 1001 := by
  refine ⟨?_, by decide⟩
  have h : map_points dfMapBig = some (List.replicate 1001 rowA) := by
    unfold map_points
    rw [if_pos (by decide)]
    show some ((List.replicate 1001 rowA).filter
      (fun r => r.latitude.isSome && r.longitude.isSome)) = _
    rw [List.filter_replicate_of_pos (by decide)]
  rw [h]
  show some (List.replicate 1001 rowA).length = some 1001
  rw [List.length_replicate]

/-- C4 (amended): when the latitude, longitude and borough columns exist,
the map plots exactly the rows whose two coordinate cells are non-null — no
cap and no sampling, whatever the row count. -/
theorem map_points_exact (df : DataFrame) (L : List Row)
    (hm : map_points df = some L) :
    (∀ r, r ∈ L ↔
       (r ∈ df.rows ∧ r.latitude.isSome = true ∧ r.longitude.isSome = true)) ∧
    L.length =
      df.rows.countP (fun r => r.latitude.isSome && r.longitude.isSome) := by
  unfold map_points at hm
  split_ifs at hm with h
  · injection hm with hm
    subst hm
    constructor
    · intro r
      rw [List.mem_filter]
      simp [Bool.and_eq_true]
    · rw [← List.countP_eq_length_filter]

/-- Witness for C4 (amended) at concrete data: the sample frame has exactly
one coordinate-bearing row, and the map point count equals the
coordinate-non-null count. -/
theorem map_points_exact_witness :
    [rowA].length =
      dfEx.rows.countP (fun r => r.latitude.isSome && r.longitude.isSome) :=
  (map_points_exact dfEx [rowA] (by decide)).2

/-- Helper: `sorted_distinct` keeps exactly the values of its input, sorted and
without duplicates. -/
lemma sorted_distinct_spec (l : List String) :
    (∀ a, a ∈ sorted_distinct l ↔ a ∈ l) ∧
    (sorted_distinct l).Sorted (· ≤ ·) ∧ (sorted_distinct l).Nodup := by
  refine ⟨fun a => ?_, ?_, ?_⟩
  · unfold sorted_distinct
    rw [List.mem_insertionSort, List.mem_dedup]
  · exact List.sorted_insertionSort _ _
  · exact (List.perm_insertionSort _ _).nodup_iff.mpr (List.nodup_dedup l)

/-- Helper: `sorted_distinct_int` keeps exactly the values of its input, sorted and
without duplicates. -/
lemma sorted_distinct_int_spec (l : List Int) :
    (∀ a, a ∈ sorted_distinct_int l ↔ a ∈ l) ∧
    (sorted_distinct_int l).Sorted (· ≤ ·) ∧ (sorted_distinct_int l).Nodup := by
  refine ⟨fun a => ?_, ?_, ?_⟩
  · unfold sorted_distinct_int
    rw [List.mem_insertionSort, List.mem_dedup]
  · exact List.sorted_insertionSort _ _
  · exact (List.perm_insertionSort _ _).nodup_iff.mpr (List.nodup_dedup l)

lemma mem_ite_sorted_distinct (c : Prop) [Decidable c] (l : List String)
    (v : String) :
    (v ∈ (if c then sorted_distinct l else [])) ↔ (c ∧ v ∈ l) := by
  by_cases h : c
  · simp [h, (sorted_distinct_spec l).1]
  · simp [h]

lemma mem_ite_sorted_distinct_int (c : Prop) [Decidable c] (l : List Int)
    (y : Int) :
    (y ∈ (if c then sorted_distinct_int l else [])) ↔ (c ∧ y ∈ l) := by
  by_cases h : c
  · simp [h, (sorted_distinct_int_spec l).1]
  · simp [h]

lemma sorted_ite_sorted_distinct (c : Prop) [Decidable c] (l : List String) :
    (if c then sorted_distinct l else []).Sorted (· ≤ ·) ∧
    (if c then sorted_distinct l else []).Nodup := by
  by_cases h : c
  · simp only [if_pos h]
    exact ⟨(sorted_distinct_spec l).2.1, (sorted_distinct_spec l).2.2⟩
  · simp only [if_neg h]
    exact ⟨List.sorted_nil, List.nodup_nil⟩

lemma sorted_ite_sorted_distinct_int (c : Prop) [Decidable c] (l : List Int) :
    (if c then sorted_distinct_int l else []).Sorted (· ≤ ·) ∧
    (if c then sorted_distinct_int l else []).Nodup := by
  by_cases h : c
  · simp only [if_pos h]
    exact ⟨(sorted_distinct_int_spec l).2.1, (sorted_distinct_int_spec l).2.2⟩
  · simp only [if_neg h]
    exact ⟨List.sorted_nil, List.nodup_nil⟩

/-- C6 counterexample: the dropdown lists come from a 10-row chunk, not the
dataset — a borough value occurring only in the 11th row of the source is
absent from the metadata borough list even though it occurs in the data (and
no top-N restriction is involved: the field is borough, not vehicle type). -/
theorem load_metadata_misses_value_counterexample :
    (load_metadata pdEx (.ok dfElevenRows)).boroughs.contains "QUEENS" = false ∧
    (dfElevenRows.rows.filterMap (·.borough)).contains "QUEENS" = true := by decide

/-- C6 (amended): each metadata list is the sorted duplicate-free list of
the distinct non-null values of its column among the *first 10 rows* of the
source (the metadata chunk), empty when the column is absent; values first
occurring beyond the chunk do not appear. -/
theorem load_metadata_first_chunk_lists (pd : String → Option Int)
    (df : DataFrame) :
    (∀ v, v ∈ (load_metadata pd (.ok df)).boroughs ↔
       (df.hasCol "BOROUGH" = true ∧
         ∃ r ∈ df.rows.take 10, r.borough = some v)) ∧
    (load_metadata pd (.ok df)).boroughs.Sorted (· ≤ ·) ∧
    (load_metadata pd (.ok df)).boroughs.Nodup ∧
    (∀ y, y ∈ (load_metadata pd (.ok df)).years ↔
       (df.hasCol "CRASH_DATE" = true ∧
         ∃ r ∈ df.rows.take 10, cellYear pd r.crash_date = some y)) ∧
    (load_metadata pd (.ok df)).years.Sorted (· ≤ ·) ∧
    (load_metadata pd (.ok df)).years.Nodup ∧
    (∀ v, v ∈ (load_metadata pd (.ok df)).vehicle_types ↔
       (df.hasCol "VEHICLE TYPE CODE 1" = true ∧
         ∃ r ∈ df.rows.take 10, r.vehicle = some v)) ∧
    (load_metadata pd (.ok df)).vehicle_types.Sorted (· ≤ ·) ∧
    (load_metadata pd (.ok df)).vehicle_types.Nodup ∧
    (∀ v, v ∈ (load_metadata pd (.ok df)).factors ↔
       (df.hasCol "CONTRIBUTING FACTOR VEHICLE 1" = true ∧
         ∃ r ∈ df.rows.take 10, r.factor = some v)) ∧
    (load_metadata pd (.ok df)).factors.Sorted (· ≤ ·) ∧
    (load_metadata pd (.ok df)).factors.Nodup ∧
    (∀ v, v ∈ (load_metadata pd (.ok df)).injuries ↔
       (df.hasCol "PERSON_INJURY" = true ∧
         ∃ r ∈ df.rows.take 10, r.injury = some v)) ∧
    (load_metadata pd (.ok df)).injuries.Sorted (· ≤ ·) ∧
    (load_metadata pd (.ok df)).injuries.Nodup := by
  simp only [load_metadata, DataFrame.hasCol]
  refine ⟨fun v => ?_, (sorted_ite_sorted_distinct _ _).1,
    (sorted_ite_sorted_distinct _ _).2, fun y => ?_,
    (sorted_ite_sorted_distinct_int _ _).1,
    (sorted_ite_sorted_distinct_int _ _).2,
    fun v => ?_, (sorted_ite_sorted_distinct _ _).1,
    (sorted_ite_sorted_distinct _ _).2,
    fun v => ?_, (sorted_ite_sorted_distinct _ _).1,
    (sorted_ite_sorted_distinct _ _).2,
    fun v => ?_, (sorted_ite_sorted_distinct _ _).1,
    (sorted_ite_sorted_distinct _ _).2⟩ <;>
  · first
    | rw [mem_ite_sorted_distinct _ _ _]
    | rw [mem_ite_sorted_distinct_int _ _ _]
    simp [List.mem_filterMap]

/-- Counting one cell of the heat pivot over the keyed groups equals
counting, among the original rows, those keyed to that cell whose
`COLLISION_ID` is non-null. -/
lemma heat_filter_count (pH : String → Option Nat) (pD : String → Option String)
    (h : Nat) (d : String) :
    ∀ rows : List Row,
      ((rows.filterMap (fun r =>
          match r.crash_time_sp.bind pH, r.crash_date_sp.bind pD with
          | some hh, some dd => some (hh, dd, r.collision_id)
          | _, _ => none)).filter
        (fun t => decide (t.1 = h) && decide (t.2.1 = d) && t.2.2.isSome)).length
      = rows.countP (fun r =>
          decide (r.crash_time_sp.bind pH = some h) &&
          decide (r.crash_date_sp.bind pD = some d) && r.collision_id.isSome)
  | [] => rfl
  | r :: t => by
    rw [List.filterMap_cons, List.countP_cons]
    rcases hts : r.crash_time_sp.bind pH with _ | a
    · simp [hts, heat_filter_count pH pD h d t]
    · rcases hds : r.crash_date_sp.bind pD with _ | b2
      · simp [hts, hds, heat_filter_count pH pD h d t]
      · by_cases hq :
          (decide (a = h) && decide (b2 = d) && r.collision_id.isSome) = true
        · simp [hts, hds, List.filter_cons, hq, heat_filter_count pH pD h d t]
        · simp [hts, hds, List.filter_cons, hq, heat_filter_count pH pD h d t]

/-- C7 (amended): when the `CRASH TIME` and `CRASH DATE` columns exist, each
`(hour, day)` cell of the pivot holds the number of rows whose time parses
to that hour and date to that day *and whose `COLLISION_ID` is non-null*
(the pivot counts the non-null values of its `COLLISION_ID` column); rows
with unparsable times or dates are excluded, any other cell reads zero, and
when the hour parser only produces hours below 24, every cell with
`24 ≤ hour` is zero. -/
theorem heat_cell_counts (pH : String → Option Nat) (pD : String → Option String)
    (df : DataFrame) (h : Nat) (d : String)
    (hc : (df.hasCol "CRASH TIME" && df.hasCol "CRASH DATE") = true) :
    heat_cell pH pD df h d =
      df.rows.countP (fun r =>
        decide (r.crash_time_sp.bind pH = some h) &&
        decide (r.crash_date_sp.bind pD = some d) &&
        r.collision_id.isSome) ∧
    ((∀ s hh, pH s = some hh → hh < 24) → 24 ≤ h →
       heat_cell pH pD df h d = 0) := by
  have hg : heat_groups pH pD df =
      some (df.rows.filterMap (fun r =>
        match r.crash_time_sp.bind pH, r.crash_date_sp.bind pD with
        | some hh, some dd => some (hh, dd, r.collision_id)
        | _, _ => none)) := by
    rw [heat_groups, if_pos hc]
  have hmain : heat_cell pH pD df h d =
      df.rows.countP (fun r =>
        decide (r.crash_time_sp.bind pH = some h) &&
        decide (r.crash_date_sp.bind pD = some d) &&
        r.collision_id.isSome) := by
    rw [heat_cell, hg]
    exact heat_filter_count pH pD h d df.rows
  refine ⟨hmain, fun hb hge => ?_⟩
  rw [hmain]
  rw [List.countP_eq_zero]
  intro r _ hp
  rw [Bool.and_eq_true] at hp
  obtain ⟨hA, _⟩ := hp
  rw [Bool.and_eq_true] at hA
  obtain ⟨hA1, _⟩ := hA
  rw [decide_eq_true_eq] at hA1
  rcases Option.bind_eq_some.mp hA1 with ⟨s, _, hs⟩
  exact absurd (hb s h hs) (by omega)

/-- Witness for C7 (amended) at concrete data: the pivot cell for
(5, Monday) over the sample frame equals the count of matching rows with a
non-null identifier. -/
theorem heat_cell_counts_witness :
    heat_cell pHex pDex dfEx 5 "Monday" =
      dfEx.rows.countP (fun r =>
        decide (r.crash_time_sp.bind pHex = some 5) &&
        decide (r.crash_date_sp.bind pDex = some "Monday") &&
        r.collision_id.isSome) :=
  (heat_cell_counts pHex pDex dfEx 5 "Monday" (by decide)).1

/-- C7 counterexample: a row whose time parses to hour 5 and date to Monday
but whose `COLLISION_ID` is null is not counted — the (5, Monday) cell reads
0 although exactly one row matches that hour and day. -/
theorem heat_cell_null_id_counterexample :
    heat_cell pHex pDex dfHeatNull 5 "Monday" = 0 ∧
    (dfHeatNull.rows.countP (fun r =>
        decide (r.crash_time_sp.bind pHex = some 5) &&
        decide (r.crash_date_sp.bind pDex = some "Monday"))) = 1 := by decide

end DataViz
